import Mathlib

/-!
Verification of `generate_icon.py` (nodaysidle-memorykeeper).

The script holds a list of ten (pixel size, filename) pairs, materialises a
Swift rendering program as text (which embeds its own copy of the same list
and of the destination path), writes that text to `/tmp/generate_icon.swift`,
and invokes `swift` on it via `os.system`, discarding the exit status.

The shallow embedding below translates, from the source:
  * the orchestrator's data (`base_path`, `sizes`, `script_path`);
  * the data embedded in the Swift program text (`swiftSizes`, `basePath`);
  * the geometry computed by `createIcon` and `drawPolaroid` in the Swift
    program, over exact rationals (`createIconGeom`, `drawPolaroid`);
  * the control flow of `createIcon`'s guard clauses and of the Swift main
    loop (`createIcon`, `runScript`), with an environment choosing which
    fallible steps succeed;
  * the orchestrator's control flow (`generate_icons`, `processExitCode`),
    with an environment choosing whether the temporary-file write succeeds
    and what status the external invocation returns.
-/

namespace MemoryKeeper

/-- A 2-D point with exact rational coordinates (embeds `CGPoint`). -/
structure Point where
  x : ℚ
  y : ℚ
  deriving DecidableEq

/-- A rectangle given by origin, width and height (embeds `CGRect`). -/
structure Rect where
  x : ℚ
  y : ℚ
  width : ℚ
  height : ℚ
  deriving DecidableEq

/-- Horizontal midpoint of a rectangle (embeds `CGRect.midX`). -/
def Rect.midX (r : Rect) : ℚ := r.x + r.width / 2

/-- Vertical midpoint of a rectangle (embeds `CGRect.midY`). -/
def Rect.midY (r : Rect) : ℚ := r.y + r.height / 2

/-- An RGBA color with exact rational components (embeds `CGColor`). -/
structure Color where
  red : ℚ
  green : ℚ
  blue : ℚ
  alpha : ℚ
  deriving DecidableEq

/-- Destination directory constant of the orchestrator
(`generate_icon.py` line 9); the Python code itself never reads it. -/
def base_path : String :=
  "/Users/archuser/Downloads/ndi/nodaysidle-memorykeeper/MemoryKeeper/Assets.xcassets/AppIcon.appiconset"

/-- The orchestrator's size list (`generate_icon.py` lines 12-23). -/
def sizes : List (Nat × String) :=
  [ (16, "icon_16x16.png"),
    (32, "icon_16x16@2x.png"),
    (32, "icon_32x32.png"),
    (64, "icon_32x32@2x.png"),
    (128, "icon_128x128.png"),
    (256, "icon_128x128@2x.png"),
    (256, "icon_256x256.png"),
    (512, "icon_256x256@2x.png"),
    (512, "icon_512x512.png"),
    (1024, "icon_512x512@2x.png") ]

/-- The independent copy of the size list embedded in the Swift program text
(`generate_icon.py` lines 168-179). -/
def swiftSizes : List (Nat × String) :=
  [ (16, "icon_16x16.png"),
    (32, "icon_16x16@2x.png"),
    (32, "icon_32x32.png"),
    (64, "icon_32x32@2x.png"),
    (128, "icon_128x128.png"),
    (256, "icon_128x128@2x.png"),
    (256, "icon_256x256.png"),
    (512, "icon_256x256@2x.png"),
    (512, "icon_512x512.png"),
    (1024, "icon_512x512@2x.png") ]

/-- The destination directory embedded in the Swift program text
(`generate_icon.py` line 181); this copy determines where images go. -/
def basePath : String :=
  "/Users/archuser/Downloads/ndi/nodaysidle-memorykeeper/MemoryKeeper/Assets.xcassets/AppIcon.appiconset"

/-- Path of the temporary Swift file (`generate_icon.py` line 192). -/
def script_path : String := "/tmp/generate_icon.swift"

/-- Icon-set base filename for size `s`: `icon_<s>x<s>.png`. -/
def baseIconName (s : Nat) : String :=
  "icon_" ++ toString s ++ "x" ++ toString s ++ ".png"

/-- Icon-set retina filename for base size `s`: `icon_<s>x<s>@2x.png`. -/
def retinaIconName (s : Nat) : String :=
  "icon_" ++ toString s ++ "x" ++ toString s ++ "@2x.png"

/-- The values `createIcon` computes for a canvas of edge length `size`
(Swift program, `generate_icon.py` lines 31-100): corner radius of the
rounded background, photo edge length, canvas center, the two polaroid
calls' rotations, offsets and accent colors, the sparkle edge length and
the sparkle center. -/
structure IconGeom where
  cornerRadius : ℚ
  photoSize : ℚ
  center : Point
  backRotation : ℚ
  backOffset : Point
  backAccent : Color
  frontRotation : ℚ
  frontOffset : Point
  frontAccent : Color
  sparkleSize : ℚ
  sparkleCenter : Point
  deriving DecidableEq

/-- Geometry computed by `createIcon` for canvas edge length `size`, as in
the Swift program text (`generate_icon.py` lines 49, 71-72, 77-78, 84-85,
89-90), with `CGFloat` arithmetic taken exactly over ℚ. -/
def createIconGeom (size : ℚ) : IconGeom :=
  let cornerRadius := size * 0.22
  let photoSize := size * 0.35
  let center := size / 2
  let sparkleSize := size * 0.12
  { cornerRadius := cornerRadius
    photoSize := photoSize
    center := ⟨center, center⟩
    backRotation := -0.15
    backOffset := ⟨-(photoSize / 2) - 5, -(photoSize / 2) + 5⟩
    backAccent := ⟨0.85, 0.65, 0.45, 1⟩
    frontRotation := 0.1
    frontOffset := ⟨-(photoSize / 2) + 5, -(photoSize / 2) - 5⟩
    frontAccent := ⟨0.88, 0.75, 0.45, 1⟩
    sparkleSize := sparkleSize
    sparkleCenter := ⟨center + photoSize * 0.5, center - photoSize * 0.4⟩ }

/-- The shapes `drawPolaroid` emits (Swift program, `generate_icon.py`
lines 102-139): the shadowed white frame, the accent-colored photo area,
and the small translucent ellipse. -/
structure PolaroidDrawing where
  shadowOffset : Point
  shadowBlur : ℚ
  shadowColor : Color
  frameColor : Color
  frameRect : Rect
  frameCorner : ℚ
  photoColor : Color
  photoRect : Rect
  iconColor : Color
  iconRect : Rect
  deriving DecidableEq

/-- Embedding of `drawPolaroid(context:size:offset:accentColor:)`
(`generate_icon.py` lines 102-139), with `CGFloat` arithmetic exact over ℚ. -/
def drawPolaroid (size : ℚ) (offset : Point) (accentColor : Color) :
    PolaroidDrawing :=
  let frameWidth := size
  let frameHeight := size * 1.15
  let photoMargin := size * 0.08
  let bottomMargin := size * 0.2
  let frameRect : Rect :=
    ⟨offset.x, offset.y - (frameHeight - size) / 2, frameWidth, frameHeight⟩
  let photoRect : Rect :=
    ⟨offset.x + photoMargin, offset.y + bottomMargin - photoMargin,
      frameWidth - photoMargin * 2, size - photoMargin⟩
  let iconSize := size * 0.2
  { shadowOffset := ⟨2, -2⟩
    shadowBlur := 8
    shadowColor := ⟨0, 0, 0, 0.2⟩
    frameColor := ⟨1, 1, 1, 1⟩
    frameRect := frameRect
    frameCorner := 4
    photoColor := accentColor
    photoRect := photoRect
    iconColor := ⟨1, 1, 1, 0.5⟩
    iconRect := ⟨photoRect.midX - iconSize / 2, photoRect.midY - iconSize / 2,
      iconSize, iconSize⟩ }

/-- Which of the fallible steps inside one `createIcon` call succeed:
the `CGContext` creation (line 34), `context.makeImage()` (line 93), and
`CGImageDestinationCreateWithURL` (line 95). -/
structure RenderFlags where
  contextOk : Bool
  imageOk : Bool
  destOk : Bool

/-- Observable outcome of one `createIcon` call: the file written, if any,
and the status lines printed. -/
structure CreateResult where
  written : Option String
  printed : List String
  deriving DecidableEq

/-- Control flow of `createIcon(size:path:)` (Swift program,
`generate_icon.py` lines 31-100): each `guard ... else return` exits with
nothing written and nothing printed; on success the PNG is written to
`path` and one `Created:` line is printed. -/
def createIcon (fl : RenderFlags) (size : Nat) (path : String) :
    CreateResult :=
  if fl.contextOk = false then { written := none, printed := [] }
  else if fl.imageOk = false then { written := none, printed := [] }
  else if fl.destOk = false then { written := none, printed := [] }
  else { written := some path, printed := ["Created: " ++ path] }

/-- Outcome of the Swift program's main loop: the per-entry results, in
order, and everything printed to standard output. -/
structure ScriptRun where
  results : List CreateResult
  output : List String
  deriving DecidableEq

/-- The Swift program's main loop (`generate_icon.py` lines 183-188):
for each `(size, filename)` in `swiftSizes` call
`createIcon(size: size, path: "\(basePath)/\(filename)")`, then print the
completion message unconditionally. `env` chooses which fallible steps of
each call succeed. -/
def runScript (env : Nat × String → RenderFlags) : ScriptRun :=
  let results :=
    swiftSizes.map (fun p => createIcon (env p) p.1 (basePath ++ "/" ++ p.2))
  { results := results
    output :=
      (results.map (fun r => r.printed)).flatten
        ++ ["All icons generated successfully!"] }

/-- The environment of one orchestrator run: whether the `open`/`write` of
the temporary file succeeds, and the status `os.system` returns for the
external `swift` invocation. -/
structure Env where
  writeOk : Bool
  systemStatus : Int

/-- Representation of the Swift program text the orchestrator writes: its
semantics is given by `runScript`, `createIconGeom` and `drawPolaroid`;
the data embedded in the text is the size list and the base path. -/
structure SwiftSource where
  srcSizes : List (Nat × String)
  srcBasePath : String
  deriving DecidableEq

/-- The one Swift program text the source constructs (`generate_icon.py`
lines 27-189): a fixed literal, so a fixed value here. -/
def swiftSource : SwiftSource := ⟨swiftSizes, basePath⟩

/-- Observable outcome of one `generate_icons()` call. -/
structure RunOutcome where
  result : Except String Unit
  scriptFile : Option SwiftSource
  invoked : Option String

/-- Control flow of `generate_icons()` (`generate_icon.py` lines 191-196):
write the Swift text to `script_path` — the only step that can raise; if it
raises, the exception propagates and `os.system` is never reached.
Otherwise run `swift {script_path}` via `os.system`, whose status
`env.systemStatus` is discarded, and return normally. -/
def generate_icons (env : Env) : RunOutcome :=
  if env.writeOk = false then
    { result := Except.error "OSError", scriptFile := none, invoked := none }
  else
    { result := Except.ok ()
      scriptFile := some swiftSource
      invoked := some ("swift " ++ script_path) }

/-- Exit status of the process (`generate_icon.py` lines 198-199): Python
exits 0 when `generate_icons()` returns, and nonzero (1) when an uncaught
exception propagates out of it. -/
def processExitCode (env : Env) : Nat :=
  match (generate_icons env).result with
  | Except.ok _ => 0
  | Except.error _ => 1

/-- Claim C1: the generator's size list consists of exactly the ten
(edge length, filename) pairs of the icon-set convention, in that order and
with no other entries, the filenames are pairwise distinct, and a run in
which every fallible step succeeds writes exactly one output file per
entry, at `basePath/<filename>`, in that order. -/
theorem claim1_size_list_exact :
    sizes =
      [ (16, "icon_16x16.png"), (32, "icon_16x16@2x.png"),
        (32, "icon_32x32.png"), (64, "icon_32x32@2x.png"),
        (128, "icon_128x128.png"), (256, "icon_128x128@2x.png"),
        (256, "icon_256x256.png"), (512, "icon_256x256@2x.png"),
        (512, "icon_512x512.png"), (1024, "icon_512x512@2x.png") ] ∧
    (sizes.map Prod.snd).Nodup ∧
    ∀ env : Nat × String → RenderFlags,
      (∀ p, (env p).contextOk = true ∧ (env p).imageOk = true ∧
        (env p).destOk = true) →
      (runScript env).results.map (fun r => r.written) =
        sizes.map (fun p => some (basePath ++ "/" ++ p.2)) := by
  refine ⟨rfl, by decide, ?_⟩
  intro env h
  have hstep : ∀ p : Nat × String,
      createIcon (env p) p.1 (basePath ++ "/" ++ p.2) =
        { written := some (basePath ++ "/" ++ p.2),
          printed := ["Created: " ++ (basePath ++ "/" ++ p.2)] } := by
    intro p
    obtain ⟨h1, h2, h3⟩ := h p
    simp [createIcon, h1, h2, h3]
  simp [runScript, hstep, sizes, swiftSizes]

/-- Closed witness for `claim1_size_list_exact` at the all-successful
environment. -/
theorem claim1_size_list_exact_witness :
    (runScript (fun _ => ⟨true, true, true⟩)).results.map
        (fun r => r.written) =
      sizes.map (fun p => some (basePath ++ "/" ++ p.2)) :=
  claim1_size_list_exact.2.2 (fun _ => ⟨true, true, true⟩)
    (fun _ => ⟨rfl, rfl, rfl⟩)

/-- Claim C2: the orchestrator's size list and the copy embedded in the
Swift program text are equal — the same ten pairs in the same order. -/
theorem claim2_size_lists_agree : sizes = swiftSizes := rfl

/-- Claim C5: every entry `(n, f)` of the orchestrator's size list follows
the icon-set naming scheme: `f = icon_<s>x<s>.png` with `s = n`, or
`f = icon_<s>x<s>@2x.png` with `n = 2 * s`. -/
theorem claim5_naming_scheme :
    ∀ p ∈ sizes, ∃ s : Nat,
      (p.2 = baseIconName s ∧ p.1 = s) ∨
      (p.2 = retinaIconName s ∧ p.1 = 2 * s) := by
  intro p hp
  fin_cases hp
  · exact ⟨16, Or.inl ⟨by decide, rfl⟩⟩
  · exact ⟨16, Or.inr ⟨by decide, rfl⟩⟩
  · exact ⟨32, Or.inl ⟨by decide, rfl⟩⟩
  · exact ⟨32, Or.inr ⟨by decide, rfl⟩⟩
  · exact ⟨128, Or.inl ⟨by decide, rfl⟩⟩
  · exact ⟨128, Or.inr ⟨by decide, rfl⟩⟩
  · exact ⟨256, Or.inl ⟨by decide, rfl⟩⟩
  · exact ⟨256, Or.inr ⟨by decide, rfl⟩⟩
  · exact ⟨512, Or.inl ⟨by decide, rfl⟩⟩
  · exact ⟨512, Or.inr ⟨by decide, rfl⟩⟩

/-- Closed witness for `claim5_naming_scheme` at the first entry. -/
theorem claim5_naming_scheme_witness :
    (16, "icon_16x16.png") ∈ sizes ∧ ∃ s : Nat,
      ((16, "icon_16x16.png") : Nat × String).2 = baseIconName s ∧
        ((16, "icon_16x16.png") : Nat × String).1 = s ∨
      ((16, "icon_16x16.png") : Nat × String).2 = retinaIconName s ∧
        ((16, "icon_16x16.png") : Nat × String).1 = 2 * s :=
  ⟨by decide, claim5_naming_scheme (16, "icon_16x16.png") (by decide)⟩

/-- Claim C9: the destination-directory string defined in the orchestrator
(`base_path`, which it never uses) is character-for-character equal to the
`basePath` string embedded in the Swift program text, the copy that
actually determines where images are written. -/
theorem claim9_base_paths_agree : base_path = basePath := rfl

/-- Claim C6: for every canvas size `s`, `createIcon` computes corner
radius `0.22 * s`, photo edge `0.35 * s`, canvas center `(s/2, s/2)`,
sparkle edge `0.12 * s`, and sparkle center
`(s/2 + 0.35*s*0.5, s/2 - 0.35*s*0.4)`. -/
theorem claim6_createIcon_dimensions (s : ℚ) :
    (createIconGeom s).cornerRadius = 0.22 * s ∧
    (createIconGeom s).photoSize = 0.35 * s ∧
    (createIconGeom s).center = ⟨s / 2, s / 2⟩ ∧
    (createIconGeom s).sparkleSize = 0.12 * s ∧
    (createIconGeom s).sparkleCenter =
      ⟨s / 2 + 0.35 * s * 0.5, s / 2 - 0.35 * s * 0.4⟩ := by
  refine ⟨?_, ?_, ?_, ?_, ?_⟩ <;>
      simp only [createIconGeom, Point.mk.injEq] <;>
    first
      | exact ⟨trivial, trivial⟩
      | ring1
      | exact ⟨by ring1, by ring1⟩

/-- Claim C7: for every edge length `E`, offset and accent color,
`drawPolaroid` draws a white frame of width `E`, height `1.15 * E`, corner
radius 4, shifted down by `(1.15*E - E)/2` from the offset, with shadow
offset `(2, -2)`, blur 8, black at 20% opacity; a photo rectangle in the
accent color inset `0.08 * E` on each side, at bottom margin `0.2 * E`,
of height `E - 0.08 * E`; and a white 50%-opacity ellipse of diameter
`0.2 * E` centered in the photo rectangle. -/
theorem claim7_drawPolaroid_shapes (E : ℚ) (offset : Point)
    (accent : Color) :
    (drawPolaroid E offset accent).frameColor = ⟨1, 1, 1, 1⟩ ∧
    (drawPolaroid E offset accent).frameRect.width = E ∧
    (drawPolaroid E offset accent).frameRect.height = 1.15 * E ∧
    (drawPolaroid E offset accent).frameCorner = 4 ∧
    (drawPolaroid E offset accent).frameRect.x = offset.x ∧
    (drawPolaroid E offset accent).frameRect.y =
      offset.y - (1.15 * E - E) / 2 ∧
    (drawPolaroid E offset accent).shadowOffset = ⟨2, -2⟩ ∧
    (drawPolaroid E offset accent).shadowBlur = 8 ∧
    (drawPolaroid E offset accent).shadowColor = ⟨0, 0, 0, 0.2⟩ ∧
    (drawPolaroid E offset accent).photoColor = accent ∧
    (drawPolaroid E offset accent).photoRect.x = offset.x + 0.08 * E ∧
    (drawPolaroid E offset accent).photoRect.width =
      E - 2 * (0.08 * E) ∧
    (drawPolaroid E offset accent).photoRect.y =
      offset.y + 0.2 * E - 0.08 * E ∧
    (drawPolaroid E offset accent).photoRect.height = E - 0.08 * E ∧
    (drawPolaroid E offset accent).iconColor = ⟨1, 1, 1, 0.5⟩ ∧
    (drawPolaroid E offset accent).iconRect.width = 0.2 * E ∧
    (drawPolaroid E offset accent).iconRect.height = 0.2 * E ∧
    (drawPolaroid E offset accent).iconRect.midX =
      (drawPolaroid E offset accent).photoRect.midX ∧
    (drawPolaroid E offset accent).iconRect.midY =
      (drawPolaroid E offset accent).photoRect.midY := by
  refine ⟨?_, ?_, ?_, ?_, ?_, ?_, ?_, ?_, ?_, ?_, ?_, ?_, ?_, ?_, ?_, ?_,
      ?_, ?_, ?_⟩ <;>
      simp only [drawPolaroid, Rect.midX, Rect.midY, Point.mk.injEq,
        Color.mk.injEq] <;>
    first
      | exact ⟨trivial, trivial⟩
      | ring1
      | exact ⟨by ring1, by ring1⟩

/-- Claim C3: for every run in which writing the temporary program file
succeeds, `generate_icons` returns normally, whatever status the external
`swift` invocation produces: the invocation's failure status is never
propagated. -/
theorem claim3_no_raise_after_write (env : Env)
    (h : env.writeOk = true) :
    (generate_icons env).result = Except.ok () := by
  simp [generate_icons, h]

/-- Closed witness for `claim3_no_raise_after_write`: the write succeeds
and the external invocation returns 127 (command not found). -/
theorem claim3_no_raise_after_write_witness :
    (⟨true, 127⟩ : Env).writeOk = true ∧
    (generate_icons ⟨true, 127⟩).result = Except.ok () :=
  ⟨rfl, claim3_no_raise_after_write ⟨true, 127⟩ rfl⟩

/-- Claim C4, counterexample: in a run where the temporary-file write
fails, the process does not exit with a success status — the uncaught
exception makes Python exit nonzero — refuting the claim that every run of
the program exits success. -/
theorem claim4_counterexample : processExitCode ⟨false, 0⟩ ≠ 0 := by
  simp [processExitCode, generate_icons]

/-- Claim C4, amended: for every run in which the temporary-file write
succeeds, the process exits with a success status, regardless of the
external invocation's status; no exit code ever reflects whether any
image was actually produced. -/
theorem claim4_exit_success (env : Env) (h : env.writeOk = true) :
    processExitCode env = 0 := by
  simp [processExitCode, generate_icons, h]

/-- Closed witness for `claim4_exit_success`: the write succeeds and the
external invocation fails with status 256. -/
theorem claim4_exit_success_witness :
    (⟨true, 256⟩ : Env).writeOk = true ∧
    processExitCode ⟨true, 256⟩ = 0 :=
  ⟨rfl, claim4_exit_success ⟨true, 256⟩ rfl⟩

/-- Claim C8: the generator is deterministic — in any two runs whose
temporary-file writes succeed, the rendering-program content written is
identical, and equals the fixed constant `swiftSource`, which depends on
no randomness, environment, or input; its geometry (`createIconGeom`,
`drawPolaroid`) is a fixed function of the entry's size. -/
theorem claim8_deterministic (e1 e2 : Env) (h1 : e1.writeOk = true)
    (h2 : e2.writeOk = true) :
    (generate_icons e1).scriptFile = (generate_icons e2).scriptFile ∧
    (generate_icons e1).scriptFile = some swiftSource := by
  simp [generate_icons, h1, h2]

/-- Closed witness for `claim8_deterministic` at two runs whose external
invocations return different statuses. -/
theorem claim8_deterministic_witness :
    (⟨true, 0⟩ : Env).writeOk = true ∧ (⟨true, 127⟩ : Env).writeOk = true ∧
    ((generate_icons ⟨true, 0⟩).scriptFile =
        (generate_icons ⟨true, 127⟩).scriptFile ∧
      (generate_icons ⟨true, 0⟩).scriptFile = some swiftSource) :=
  ⟨rfl, rfl, claim8_deterministic ⟨true, 0⟩ ⟨true, 127⟩ rfl rfl⟩

/-- Claim C10: in the generated Swift program, a per-entry failure of the
bitmap context, the rendered image, or the PNG destination makes
`createIcon` return silently — nothing written, no `Created:` line, no
error — and never stops the loop: every entry is processed and the final
completion message is printed unconditionally. -/
theorem claim10_silent_per_entry_failure
    (env : Nat × String → RenderFlags) :
    (runScript env).output.getLast? =
      some "All icons generated successfully!" ∧
    (runScript env).results.length = swiftSizes.length ∧
    ∀ p ∈ swiftSizes,
      ((env p).contextOk = false ∨ (env p).imageOk = false ∨
        (env p).destOk = false) →
      createIcon (env p) p.1 (basePath ++ "/" ++ p.2) =
        { written := none, printed := [] } := by
  refine ⟨?_, ?_, ?_⟩
  · simp [runScript]
  · simp [runScript]
  · intro p _ hfail
    rcases hfail with h | h | h <;> simp [createIcon, h, ite_self]

/-- Closed witness for `claim10_silent_per_entry_failure`: with the bitmap
context failing on every entry, the first entry writes nothing and prints
nothing, while the completion message is still the last line printed. -/
theorem claim10_silent_per_entry_failure_witness :
    (runScript (fun _ => ⟨false, true, true⟩)).output.getLast? =
      some "All icons generated successfully!" ∧
    (16, "icon_16x16.png") ∈ swiftSizes ∧
    createIcon ((fun _ => (⟨false, true, true⟩ : RenderFlags))
        (16, "icon_16x16.png")) 16 (basePath ++ "/" ++ "icon_16x16.png") =
      { written := none, printed := [] } :=
  ⟨(claim10_silent_per_entry_failure (fun _ => ⟨false, true, true⟩)).1,
    by decide,
    (claim10_silent_per_entry_failure (fun _ => ⟨false, true, true⟩)).2.2
      (16, "icon_16x16.png") (by decide) (Or.inl rfl)⟩

end MemoryKeeper
